import Mathlib

/-!
Shallow embedding of the WellnessHub backend (src/main.py): credential
store, token issuer, session middleware and preference store, together
with proofs of the specification's claims about them.

Machine conventions: time is a `Nat` of seconds since the epoch; the
relational store is a list of user rows plus the next primary key; every
fallible request handler returns an `Except` value paired with the store
it leaves behind (mutations happen in place in the Python, so an error
path hands back the store unchanged).
-/

namespace WellnessHub

/-- One row of the `users` table (class `User` in src/main.py). -/
structure User where
  id : Nat
  username : String
  password : String
  theme : String
  notifications_enabled : Bool
  language : String
  incognito : Bool
deriving Repr, DecidableEq

/-- The relational store: the `users` table plus the next auto-increment
primary key (SQLite starts at 1). -/
structure Store where
  users : List User
  nextId : Nat
deriving Repr, DecidableEq

/-- The empty database created by `Base.metadata.create_all`. -/
def emptyStore : Store := { users := [], nextId := 1 }

/-- Token validity window, `ACCESS_TOKEN_EXPIRE_MINUTES` in src/main.py. -/
def ACCESS_TOKEN_EXPIRE_MINUTES : Nat := 60

/-- Claims carried by a JWT: the optional `sub` claim and the `exp`
timestamp added by `create_access_token`. -/
structure JwtPayload where
  sub : Option String
  exp : Nat
deriving Repr, DecidableEq

/-- A bearer token as the middleware sees it: either a well-formed JWT
signed with some secret, or an undecodable string. -/
inductive Token
  | signed (payload : JwtPayload) (secret : String)
  | malformed (raw : String)
deriving Repr, DecidableEq

/-- Defects reported by token validation. -/
inductive JwtError
  | malformed
  | badSignature
  | expired
deriving Repr, DecidableEq

/-- Outcomes a handler can surface: an `HTTPException(status, detail)`,
or an uncaught Python `ValueError` (which the framework turns into a
500 server error). -/
inductive ApiError
  | http (status : Nat) (detail : String)
  | valueError (msg : String)
deriving Repr, DecidableEq

/-- Modelled from the spec: `jwt.decode` of the token-signing library
(python-jose), which is not part of this repository. Verifies the
signature and the expiry; per §4.2 and §8 a token "validates until
T+60min and fails with `expired` at T+60min+ε" and a token signed with
a different secret always fails with `bad-signature`. -/
def jwt_decode (secret : String) (now : Nat) (tok : Token) :
    Except JwtError JwtPayload :=
  match tok with
  | .malformed _ => .error .malformed
  | .signed payload s =>
      if s ≠ secret then .error .badSignature
      else if payload.exp ≤ now then .error .expired
      else .ok payload

/-- `create_access_token` from src/main.py: copies the caller's claims
(`data`, here just the optional `sub` string), adds an `exp` of now plus
the supplied delta in minutes (default `ACCESS_TOKEN_EXPIRE_MINUTES`),
and signs with the process secret. -/
def create_access_token (secret : String) (now : Nat) (data : Option String)
    (expires_delta_min : Option Nat) : Token :=
  let expire := match expires_delta_min with
    | some d => now + d * 60
    | none => now + ACCESS_TOKEN_EXPIRE_MINUTES * 60
  Token.signed { sub := data, exp := expire } secret

/-- One step of decimal accumulation for Python's `int(...)`: reject a
non-digit character, otherwise append the digit to the accumulator. -/
def intStep (acc : Option Nat) (c : Char) : Option Nat :=
  match acc with
  | none => none
  | some n => if c.isDigit then some (n * 10 + (c.toNat - 48)) else none

/-- Value of a non-empty all-digit character run, `none` otherwise. -/
def digitsToNat (cs : List Char) : Option Nat :=
  if cs = [] then none else cs.foldl intStep (some 0)

/-- Modelled from the spec: Python's `int(...)` conversion applied to a
string, used by `get_current_user` on the token subject. Succeeds on an
optionally signed run of decimal digits, raises `ValueError` (here
`none`) otherwise. (Python also allows surrounding whitespace and digit
underscores; no value flowing into this call site carries either, so
they are not modelled.) -/
def pythonIntList : List Char → Option Int
  | [] => none
  | c :: cs =>
    if c = '-' then (digitsToNat cs).map (fun n => -(n : Int))
    else if c = '+' then (digitsToNat cs).map (fun n => (n : Int))
    else (digitsToNat (c :: cs)).map (fun n => (n : Int))

/-- Python `int(s)`: see `pythonIntList`. -/
def pythonInt (s : String) : Option Int := pythonIntList s.toList

/-- The fixed 401 raised by `get_current_user` on any validation failure. -/
def credentialsException : ApiError :=
  .http 401 "Could not validate credentials"

/-- Lookup by primary key: `db.query(User).get(user_id)` in the
preference handlers and `db.query(User).filter(User.id == ...)` in the
middleware (the id arrives as a Python `int`). -/
def getById (db : Store) (user_id : Int) : Option User :=
  db.users.find? (fun u => (u.id : Int) = user_id)

/-- Write one row back by primary key. -/
def setById (db : Store) (user_id : Int) (f : User → User) : Store :=
  { db with users := db.users.map (fun u => if (u.id : Int) = user_id then f u else u) }

/-- `get_current_user` from src/main.py: decode the token, read the
`sub` claim, convert it with `int(...)`, look the id up in the store.
Decoding failures and a missing subject raise the fixed 401; the bare
`int(user_id)` call is outside the `try`, so a non-numeric subject
escapes as a `ValueError`. -/
def get_current_user (secret : String) (now : Nat) (tok : Token)
    (db : Store) : Except ApiError User :=
  match jwt_decode secret now tok with
  | .error _ => .error credentialsException
  | .ok payload =>
    match payload.sub with
    | none => .error credentialsException
    | some s =>
      match pythonInt s with
      | none => .error (.valueError "invalid literal for int")
      | some n =>
        match getById db n with
        | none => .error credentialsException
        | some u => .ok u

/-- Response body of a successful `POST /login`. -/
structure LoginResponse where
  success : Bool
  user_id : Nat
  token : Token
deriving Repr, DecidableEq

/-- `login_user` from src/main.py: look the row up by username, check
the password with the hashing library's verify (passed in as
`verifyFn`), and fail with one 400 if either step fails. -/
def login_user (verifyFn : String → String → Bool) (secret : String)
    (now : Nat) (username password : String) (db : Store) :
    Except ApiError LoginResponse × Store :=
  match db.users.find? (fun u => u.username = username) with
  | none => (.error (.http 400 "Invalid username or password"), db)
  | some user =>
    if verifyFn password user.password then
      (.ok { success := true, user_id := user.id,
             token := create_access_token secret now (some (toString user.id))
               (some ACCESS_TOKEN_EXPIRE_MINUTES) }, db)
    else (.error (.http 400 "Invalid username or password"), db)

/-- Response body of a successful `POST /register`. -/
structure RegisterResponse where
  success : Bool
  message : String
  user_id : Nat
  token : Token
deriving Repr, DecidableEq

/-- `register_user` from src/main.py: reject a taken username with 400,
otherwise persist a new row holding the hash of the password (hashing
library passed in as `hashFn`; column defaults from the model) and
return a fresh token for the new id. -/
def register_user (hashFn : String → String) (secret : String) (now : Nat)
    (username password : String) (db : Store) :
    Except ApiError RegisterResponse × Store :=
  match db.users.find? (fun u => u.username = username) with
  | some _ => (.error (.http 400 "Username already registered"), db)
  | none =>
    let new_user : User :=
      { id := db.nextId, username := username, password := hashFn password,
        theme := "light", notifications_enabled := true,
        language := "en", incognito := false }
    let db' : Store := { users := db.users ++ [new_user], nextId := db.nextId + 1 }
    (.ok { success := true, message := "User registered successfully",
           user_id := new_user.id,
           token := create_access_token secret now (some (toString new_user.id))
             (some ACCESS_TOKEN_EXPIRE_MINUTES) }, db')

/-- `GET /logout` from src/main.py: a bare redirect to `/login`; it
touches neither the store nor any token state. -/
def logout (db : Store) : (String × Nat) × Store := (("/login", 303), db)

/-- Response body of `POST /personalize`. -/
structure ThemeResponse where
  success : Bool
  theme : String
deriving Repr, DecidableEq

/-- `personalize` from src/main.py (`POST /personalize`): takes
`user_id` and `theme` straight from the form data, with no
authentication dependency; 404 when the id matches no row. -/
def personalize (user_id : Int) (theme : String) (db : Store) :
    Except ApiError ThemeResponse × Store :=
  match getById db user_id with
  | some _ =>
      (.ok { success := true, theme := theme },
       setById db user_id (fun u => { u with theme := theme }))
  | none => (.error (.http 404 "User not found"), db)

/-- Response body of `POST /notifications`. -/
structure NotificationsResponse where
  success : Bool
  notifications_enabled : Bool
deriving Repr, DecidableEq

/-- `notifications` from src/main.py (`POST /notifications`): same
shape as `personalize`, for the `notifications_enabled` flag. -/
def notifications (user_id : Int) (enabled : Bool) (db : Store) :
    Except ApiError NotificationsResponse × Store :=
  match getById db user_id with
  | some _ =>
      (.ok { success := true, notifications_enabled := enabled },
       setById db user_id (fun u => { u with notifications_enabled := enabled }))
  | none => (.error (.http 404 "User not found"), db)

/-- Response body of `POST /language`. -/
structure LanguageResponse where
  success : Bool
  language : String
deriving Repr, DecidableEq

/-- `change_language` from src/main.py (`POST /language`): same shape
as `personalize`, for the `language` field. -/
def change_language (user_id : Int) (language : String) (db : Store) :
    Except ApiError LanguageResponse × Store :=
  match getById db user_id with
  | some _ =>
      (.ok { success := true, language := language },
       setById db user_id (fun u => { u with language := language }))
  | none => (.error (.http 404 "User not found"), db)

/-- Response body of `POST /incognito`. -/
structure IncognitoResponse where
  success : Bool
  incognito : Bool
deriving Repr, DecidableEq

/-- `toggle_incognito` from src/main.py (`POST /incognito`): same shape
as `personalize`, for the `incognito` flag. -/
def toggle_incognito (user_id : Int) (enabled : Bool) (db : Store) :
    Except ApiError IncognitoResponse × Store :=
  match getById db user_id with
  | some _ =>
      (.ok { success := true, incognito := enabled },
       setById db user_id (fun u => { u with incognito := enabled }))
  | none => (.error (.http 404 "User not found"), db)

/-- The store states reachable through the exposed mutating operations,
starting from the freshly created database. Read-only routes (login,
logout, `get_current_user`, the page and proxy routes) never write, so
they contribute no step. -/
inductive Reachable (hashFn : String → String) (secret : String) : Store → Prop
  | init : Reachable hashFn secret emptyStore
  | register (now : Nat) (username password : String) (db : Store) :
      Reachable hashFn secret db →
      Reachable hashFn secret (register_user hashFn secret now username password db).2
  | set_theme (user_id : Int) (theme : String) (db : Store) :
      Reachable hashFn secret db →
      Reachable hashFn secret (personalize user_id theme db).2
  | set_notifications (user_id : Int) (enabled : Bool) (db : Store) :
      Reachable hashFn secret db →
      Reachable hashFn secret (notifications user_id enabled db).2
  | set_language (user_id : Int) (language : String) (db : Store) :
      Reachable hashFn secret db →
      Reachable hashFn secret (change_language user_id language db).2
  | set_incognito (user_id : Int) (enabled : Bool) (db : Store) :
      Reachable hashFn secret db →
      Reachable hashFn secret (toggle_incognito user_id enabled db).2

/-- Concrete bcrypt stand-in used only to evaluate witnesses. -/
def demoHash (p : String) : String := "hashed." ++ p

/-- Concrete verify matching `demoHash`, used only in witnesses. -/
def demoVerify (p stored : String) : Bool := stored = demoHash p

/-- A registered user record, used only to evaluate witnesses. -/
def aliceUser : User :=
  { id := 1, username := "alice", password := demoHash "pw1",
    theme := "light", notifications_enabled := true,
    language := "en", incognito := false }

/-- A store holding just `aliceUser`, used only to evaluate witnesses. -/
def dbAlice : Store := { users := [aliceUser], nextId := 2 }

/-- Number of decimal digits of a natural number. -/
def decLen (n : Nat) : Nat :=
  if h : n < 10 then 1
  else
    have : n / 10 < n := Nat.div_lt_self (by omega) (by omega)
    decLen (n / 10) + 1

theorem decLen_small {n : Nat} (h : n < 10) : decLen n = 1 := by
  rw [decLen]; simp [h]

theorem decLen_large {n : Nat} (h : ¬ n < 10) : decLen n = decLen (n / 10) + 1 := by
  rw [decLen]; simp [h]

theorem intStep_digitChar (acc : Nat) {m : Nat} (h : m < 10) :
    intStep (some acc) (Nat.digitChar m) = some (acc * 10 + m) := by
  interval_cases m <;> rfl

theorem digitChar_ne_sign {m : Nat} (h : m < 10) :
    Nat.digitChar m ≠ '-' ∧ Nat.digitChar m ≠ '+' := by
  interval_cases m <;> exact ⟨by decide, by decide⟩

/-- Folding the decimal accumulator over the digits that
`Nat.toDigitsCore` emits appends `n` to the accumulator. -/
theorem toDigitsCore_foldl :
    ∀ (fuel n acc : Nat) (ds : List Char), n < fuel →
      List.foldl intStep (some acc) (Nat.toDigitsCore 10 fuel n ds) =
      List.foldl intStep (some (acc * 10 ^ decLen n + n)) ds
  | 0, n, _, _, h => absurd h (Nat.not_lt_zero n)
  | fuel + 1, n, acc, ds, h => by
    unfold Nat.toDigitsCore
    by_cases h0 : n / 10 = 0
    · have hn : n < 10 := by omega
      rw [if_pos h0, List.foldl_cons,
        intStep_digitChar acc (Nat.mod_lt _ (by omega)),
        Nat.mod_eq_of_lt hn, decLen_small hn, pow_one]
    · have hlt : n / 10 < fuel := by
        have : n / 10 < n := Nat.div_lt_self (by omega) (by omega)
        omega
      rw [if_neg h0,
        toDigitsCore_foldl fuel (n / 10) acc (Nat.digitChar (n % 10) :: ds) hlt,
        List.foldl_cons,
        intStep_digitChar _ (Nat.mod_lt _ (by omega)),
        decLen_large (show ¬ n < 10 by omega)]
      congr 2
      rw [pow_succ, ← Nat.mul_assoc]
      omega

/-- The first character `Nat.toDigitsCore` emits is a decimal digit. -/
theorem toDigitsCore_head :
    ∀ (fuel n : Nat) (ds : List Char), 0 < fuel →
      ∃ m tl, m < 10 ∧ Nat.toDigitsCore 10 fuel n ds = Nat.digitChar m :: tl
  | 0, n, _, h => absurd h (by omega)
  | fuel + 1, n, ds, _ => by
    unfold Nat.toDigitsCore
    by_cases h0 : n / 10 = 0
    · exact ⟨n % 10, ds, Nat.mod_lt _ (by omega), by rw [if_pos h0]⟩
    · rw [if_neg h0]
      cases fuel with
      | zero => exact ⟨n % 10, ds, Nat.mod_lt _ (by omega), rfl⟩
      | succ fuel =>
        exact toDigitsCore_head (fuel + 1) (n / 10)
          (Nat.digitChar (n % 10) :: ds) (Nat.succ_pos fuel)

/-- Python's `int(...)` inverts Python's `str(...)` on the ids the
token issuer embeds as subjects. -/
theorem pythonInt_toString (n : Nat) : pythonInt (toString n) = some (n : Int) := by
  have hts : toString n = (Nat.toDigits 10 n).asString := rfl
  obtain ⟨m, tl, hm, heq⟩ :=
    toDigitsCore_head (n + 1) n [] (Nat.succ_pos n)
  have hlist : (toString n).toList = Nat.toDigits 10 n := rfl
  have hfold : List.foldl intStep (some 0) (Nat.toDigits 10 n) = some n := by
    have := toDigitsCore_foldl (n + 1) n 0 [] (Nat.lt_succ_self n)
    simpa [Nat.toDigits] using this
  rw [pythonInt, hlist, Nat.toDigits, heq, pythonIntList]
  rw [if_neg (digitChar_ne_sign hm).1, if_neg (digitChar_ne_sign hm).2]
  have hne : Nat.digitChar m :: tl ≠ [] := by simp
  rw [digitsToNat, if_neg hne, ← heq]
  rw [show Nat.toDigitsCore 10 (n + 1) n [] = Nat.toDigits 10 n from rfl, hfold]
  rfl

/-- Reading a row of the store after a keyed write: the matching row is
transformed, every other row is returned untouched. -/
theorem setById_get? (db : Store) (user_id : Int) (f : User → User) (i : Nat) :
    (setById db user_id f).users.get? i =
      (db.users.get? i).map (fun v => if (v.id : Int) = user_id then f v else v) := by
  simp [setById]

/-- C1: the claim fails on the code. The four preference handlers take
`user_id` straight from the request form and declare no authentication
dependency at all: no token appears among their inputs, yet each one
performs the write for the caller-supplied id, as the evaluations below
show. This contradicts the handlers' own comment in src/main.py
("for full security, you'd add `Depends(get_current_user)` here"). -/
theorem preference_update_without_token :
    personalize 1 "dark" dbAlice =
      (.ok { success := true, theme := "dark" },
       { users := [{ aliceUser with theme := "dark" }], nextId := 2 }) ∧
    notifications 1 false dbAlice =
      (.ok { success := true, notifications_enabled := false },
       { users := [{ aliceUser with notifications_enabled := false }], nextId := 2 }) ∧
    change_language 1 "fr" dbAlice =
      (.ok { success := true, language := "fr" },
       { users := [{ aliceUser with language := "fr" }], nextId := 2 }) ∧
    toggle_incognito 1 true dbAlice =
      (.ok { success := true, incognito := true },
       { users := [{ aliceUser with incognito := true }], nextId := 2 }) :=
  ⟨rfl, rfl, rfl, rfl⟩

/-- C2: when the username is already present, a second `register` call
fails with the 400 duplicate-username rejection and hands back the
store exactly as it was: the first record is untouched and no record is
created. -/
theorem register_duplicate_rejected (hashFn : String → String)
    (secret : String) (now : Nat) (username password : String) (db : Store)
    (h : ∃ u ∈ db.users, u.username = username) :
    register_user hashFn secret now username password db =
      (.error (.http 400 "Username already registered"), db) := by
  obtain ⟨u, hu, hname⟩ := h
  cases hf : db.users.find? (fun v => v.username = username) with
  | none =>
      exfalso
      have := List.find?_eq_none.mp hf u hu
      simp [hname] at this
  | some v => simp [register_user, hf]

/-- C2 witness: re-registering "alice" against the one-user store. -/
theorem register_duplicate_rejected_witness :
    register_user demoHash "sec" 0 "alice" "pw2" dbAlice =
      (.error (.http 400 "Username already registered"), dbAlice) :=
  register_duplicate_rejected demoHash "sec" 0 "alice" "pw2" dbAlice
    ⟨aliceUser, by simp [dbAlice], rfl⟩

/-- C6: each of the four preference setters answers a `user_id` that
matches no stored row with the 404 rejection and performs no write: the
store coming back is the store that went in. -/
theorem preference_set_not_found (user_id : Int) (theme language : String)
    (nEnabled iEnabled : Bool) (db : Store)
    (h : getById db user_id = none) :
    personalize user_id theme db = (.error (.http 404 "User not found"), db) ∧
    notifications user_id nEnabled db = (.error (.http 404 "User not found"), db) ∧
    change_language user_id language db = (.error (.http 404 "User not found"), db) ∧
    toggle_incognito user_id iEnabled db = (.error (.http 404 "User not found"), db) := by
  refine ⟨?_, ?_, ?_, ?_⟩ <;>
    simp [personalize, notifications, change_language, toggle_incognito, h]

/-- C6 witness: id 99 matches nobody in the one-user store. -/
theorem preference_set_not_found_witness :
    personalize 99 "dark" dbAlice = (.error (.http 404 "User not found"), dbAlice) ∧
    notifications 99 false dbAlice = (.error (.http 404 "User not found"), dbAlice) ∧
    change_language 99 "fr" dbAlice = (.error (.http 404 "User not found"), dbAlice) ∧
    toggle_incognito 99 true dbAlice = (.error (.http 404 "User not found"), dbAlice) :=
  preference_set_not_found 99 "dark" "fr" false true dbAlice rfl

/-- C9: a validly signed, unexpired token whose subject is the
non-numeric string "alice" is not answered with the fixed 401: the bare
`int(user_id)` call in `get_current_user` raises a `ValueError`, which
surfaces as a server error. -/
theorem nonnumeric_subject_server_error :
    jwt_decode "sec" 0 (.signed { sub := some "alice", exp := 3600 } "sec") =
      .ok { sub := some "alice", exp := 3600 } ∧
    get_current_user "sec" 0 (.signed { sub := some "alice", exp := 3600 } "sec") dbAlice =
      .error (.valueError "invalid literal for int") ∧
    get_current_user "sec" 0 (.signed { sub := some "alice", exp := 3600 } "sec") dbAlice ≠
      .error credentialsException := by
  refine ⟨rfl, rfl, ?_⟩
  intro hcontra
  rw [show get_current_user "sec" 0 (.signed { sub := some "alice", exp := 3600 } "sec") dbAlice =
      .error (.valueError "invalid literal for int") from rfl] at hcontra
  exact absurd (Except.error.inj hcontra) (by decide)

/-- C10: a validly signed, unexpired token whose payload carries no
`sub` claim is rejected with the same fixed 401 as a malformed token,
whatever the database holds. -/
theorem missing_subject_rejected (secret : String) (now exp2 : Nat)
    (db : Store) (h : now < exp2) :
    get_current_user secret now (.signed { sub := none, exp := exp2 } secret) db =
      .error credentialsException := by
  simp [get_current_user, jwt_decode, Nat.not_le.mpr h]

/-- C10 witness: a sub-less token at time 0 against the one-user store. -/
theorem missing_subject_rejected_witness :
    0 < 3600 ∧
    get_current_user "sec" 0 (.signed { sub := none, exp := 3600 } "sec") dbAlice =
      .error credentialsException :=
  ⟨by decide, missing_subject_rejected "sec" 0 3600 dbAlice (by decide)⟩

/-- C3: login succeeds, returning the user's id and a freshly issued
token, exactly when the username lookup finds a record whose stored
hash verifies against the candidate password; when the username is
absent or verification fails it answers the one 400 rejection. -/
theorem login_user_spec (verifyFn : String → String → Bool) (secret : String)
    (now : Nat) (username password : String) (db : Store) :
    ((∃ u, db.users.find? (fun v => v.username = username) = some u ∧
        verifyFn password u.password = true) →
      ∃ u, db.users.find? (fun v => v.username = username) = some u ∧
        login_user verifyFn secret now username password db =
          (.ok { success := true, user_id := u.id,
                 token := create_access_token secret now (some (toString u.id))
                   (some ACCESS_TOKEN_EXPIRE_MINUTES) }, db)) ∧
    ((¬ ∃ u, db.users.find? (fun v => v.username = username) = some u ∧
        verifyFn password u.password = true) →
      login_user verifyFn secret now username password db =
        (.error (.http 400 "Invalid username or password"), db)) := by
  constructor
  · rintro ⟨u, hu, hv⟩
    exact ⟨u, hu, by simp [login_user, hu, hv]⟩
  · intro hno
    cases hf : db.users.find? (fun v => v.username = username) with
    | none => simp [login_user, hf]
    | some u =>
      cases hv : verifyFn password u.password with
      | true => exact absurd ⟨u, hf, hv⟩ hno
      | false => simp [login_user, hf, hv]

/-- C3 witness: logging "alice" in with the right password succeeds
against the one-user store. -/
theorem login_user_spec_witness :
    ∃ u, dbAlice.users.find? (fun v => v.username = "alice") = some u ∧
      login_user demoVerify "sec" 0 "alice" "pw1" dbAlice =
        (.ok { success := true, user_id := u.id,
               token := create_access_token "sec" 0 (some (toString u.id))
                 (some ACCESS_TOKEN_EXPIRE_MINUTES) }, dbAlice) :=
  (login_user_spec demoVerify "sec" 0 "alice" "pw1" dbAlice).1
    ⟨aliceUser, rfl, rfl⟩

/-- C4 counterexample: a token correctly signed and far from expiry
whose subject "bob" matches no stored user (the one stored user renders
as "1") is not rejected with the fixed 401: the conversion at
`int(user_id)` raises instead, so the claim's "subject does not resolve
to a stored user implies the fixed unauthenticated status" fails here. -/
theorem get_current_user_not_always_401 :
    jwt_decode "topsecret" 100 (.signed { sub := some "bob", exp := 7200 } "topsecret") =
      .ok { sub := some "bob", exp := 7200 } ∧
    (dbAlice.users.all fun u => toString u.id != "bob") = true ∧
    get_current_user "topsecret" 100
      (.signed { sub := some "bob", exp := 7200 } "topsecret") dbAlice =
      .error (.valueError "invalid literal for int") ∧
    get_current_user "topsecret" 100
      (.signed { sub := some "bob", exp := 7200 } "topsecret") dbAlice ≠
      .error credentialsException := by
  refine ⟨rfl, rfl, rfl, ?_⟩
  intro hcontra
  rw [show get_current_user "topsecret" 100
      (.signed { sub := some "bob", exp := 7200 } "topsecret") dbAlice =
      .error (.valueError "invalid literal for int") from rfl] at hcontra
  exact absurd (Except.error.inj hcontra) (by decide)

/-- C4 (amended): the middleware answers with the one fixed 401
whenever token decoding fails (malformed, wrong secret, expired), the
payload has no subject, or the subject is a string that converts to an
integer matching no stored user; and a token signed with a different
secret always fails decoding with `bad-signature` and so never reaches
the protected handler. (A subject that does not convert to an integer
instead escapes as a `ValueError`; see the counterexample.) -/
theorem get_current_user_fixed_401 (secret s2 : String) (now : Nat)
    (tok : Token) (db : Store) (p : JwtPayload)
    (h : (∃ e, jwt_decode secret now tok = .error e) ∨
         (∃ q, jwt_decode secret now tok = .ok q ∧ q.sub = none) ∨
         (∃ q s n, jwt_decode secret now tok = .ok q ∧ q.sub = some s ∧
            pythonInt s = some n ∧ getById db n = none)) :
    get_current_user secret now tok db = .error credentialsException ∧
    (s2 ≠ secret →
      jwt_decode secret now (.signed p s2) = .error .badSignature ∧
      get_current_user secret now (.signed p s2) db = .error credentialsException) := by
  constructor
  · rcases h with ⟨e, he⟩ | ⟨q, hq, hsub⟩ | ⟨q, s, n, hq, hsub, hint, hdb⟩
    · simp [get_current_user, he]
    · simp [get_current_user, hq, hsub]
    · simp [get_current_user, hq, hsub, hint, hdb]
  · intro hne
    have hdec : jwt_decode secret now (.signed p s2) = .error .badSignature := by
      simp [jwt_decode, hne]
    exact ⟨hdec, by simp [get_current_user, hdec]⟩

/-- C4 witness: a malformed token gets the 401, and a token signed with
the secret "evil" instead of "sec" fails with `bad-signature` and also
gets the 401. -/
theorem get_current_user_fixed_401_witness :
    get_current_user "sec" 0 (.malformed "zzz") dbAlice = .error credentialsException ∧
    jwt_decode "sec" 0 (.signed { sub := some "1", exp := 3600 } "evil") =
      .error .badSignature ∧
    get_current_user "sec" 0 (.signed { sub := some "1", exp := 3600 } "evil") dbAlice =
      .error credentialsException :=
  have h := get_current_user_fixed_401 "sec" "evil" 0 (.malformed "zzz") dbAlice
    { sub := some "1", exp := 3600 } (.inl ⟨.malformed, rfl⟩)
  ⟨h.1, (h.2 (by decide)).1, (h.2 (by decide)).2⟩

/-- C5: a token issued at time T for a stored user resolves to that
user at every instant strictly before T+60min, and at T+60min and
later it fails decoding with `expired` (so the middleware answers 401);
`logout` touches no state at all, so no number of logout calls can
shorten the window. -/
theorem token_validity_window (secret : String) (T t : Nat) (db : Store)
    (u : User) (hu : getById db (u.id : Int) = some u) :
    (t < T + 3600 →
      get_current_user secret t
        (create_access_token secret T (some (toString u.id))
          (some ACCESS_TOKEN_EXPIRE_MINUTES)) db = .ok u) ∧
    (T + 3600 ≤ t →
      jwt_decode secret t
        (create_access_token secret T (some (toString u.id))
          (some ACCESS_TOKEN_EXPIRE_MINUTES)) = .error .expired ∧
      get_current_user secret t
        (create_access_token secret T (some (toString u.id))
          (some ACCESS_TOKEN_EXPIRE_MINUTES)) db = .error credentialsException) ∧
    (logout db).2 = db := by
  have hexp : create_access_token secret T (some (toString u.id))
      (some ACCESS_TOKEN_EXPIRE_MINUTES) =
      Token.signed { sub := some (toString u.id), exp := T + 3600 } secret := rfl
  refine ⟨?_, ?_, rfl⟩
  · intro ht
    rw [hexp]
    simp [get_current_user, jwt_decode, Nat.not_le.mpr ht, pythonInt_toString, hu]
  · intro ht
    rw [hexp]
    constructor
    · simp [jwt_decode, ht]
    · simp [get_current_user, jwt_decode, ht]

/-- C5 witness: the token issued at T=0 for "alice" resolves to her at
t=10 and is expired at t=3600. -/
theorem token_validity_window_witness :
    get_current_user "sec" 10
      (create_access_token "sec" 0 (some (toString aliceUser.id))
        (some ACCESS_TOKEN_EXPIRE_MINUTES)) dbAlice = .ok aliceUser ∧
    jwt_decode "sec" 3600
      (create_access_token "sec" 0 (some (toString aliceUser.id))
        (some ACCESS_TOKEN_EXPIRE_MINUTES)) = .error .expired :=
  ⟨(token_validity_window "sec" 0 10 dbAlice aliceUser rfl).1 (by decide),
   ((token_validity_window "sec" 0 3600 dbAlice aliceUser rfl).2.1 (by decide)).1⟩

/-- A keyed write leaves the row count alone. -/
theorem setById_length (db : Store) (user_id : Int) (f : User → User) :
    (setById db user_id f).users.length = db.users.length := by
  simp [setById]

/-- Row `i` after a keyed write, given row `i` before it. -/
theorem setById_frame (db : Store) (user_id : Int) (f : User → User) (i : Nat)
    (v : User) (hv : db.users.get? i = some v) :
    (setById db user_id f).users.get? i =
      some (if (v.id : Int) = user_id then f v else v) := by
  rw [setById_get?, hv]
  rfl

/-- C7: on an existing user, each preference endpoint reports success
with the supplied value, creates and deletes nothing, and rewrites
exactly the one named field of exactly the matching row: id, username,
password hash and the three other preference fields of that row, and
every field of every other row, come back unchanged. -/
theorem preference_update_frame (user_id : Int) (theme2 language2 : String)
    (nEnabled iEnabled : Bool) (db : Store)
    (h : (getById db user_id).isSome = true) :
    ((personalize user_id theme2 db).1 = .ok { success := true, theme := theme2 } ∧
     (personalize user_id theme2 db).2.nextId = db.nextId ∧
     (personalize user_id theme2 db).2.users.length = db.users.length ∧
     (∀ i v, db.users.get? i = some v →
        ∃ v2, (personalize user_id theme2 db).2.users.get? i = some v2 ∧
          v2.id = v.id ∧ v2.username = v.username ∧ v2.password = v.password ∧
          v2.notifications_enabled = v.notifications_enabled ∧
          v2.language = v.language ∧ v2.incognito = v.incognito ∧
          v2.theme = (if (v.id : Int) = user_id then theme2 else v.theme))) ∧
    ((notifications user_id nEnabled db).1 =
        .ok { success := true, notifications_enabled := nEnabled } ∧
     (notifications user_id nEnabled db).2.nextId = db.nextId ∧
     (notifications user_id nEnabled db).2.users.length = db.users.length ∧
     (∀ i v, db.users.get? i = some v →
        ∃ v2, (notifications user_id nEnabled db).2.users.get? i = some v2 ∧
          v2.id = v.id ∧ v2.username = v.username ∧ v2.password = v.password ∧
          v2.theme = v.theme ∧ v2.language = v.language ∧ v2.incognito = v.incognito ∧
          v2.notifications_enabled =
            (if (v.id : Int) = user_id then nEnabled else v.notifications_enabled))) ∧
    ((change_language user_id language2 db).1 =
        .ok { success := true, language := language2 } ∧
     (change_language user_id language2 db).2.nextId = db.nextId ∧
     (change_language user_id language2 db).2.users.length = db.users.length ∧
     (∀ i v, db.users.get? i = some v →
        ∃ v2, (change_language user_id language2 db).2.users.get? i = some v2 ∧
          v2.id = v.id ∧ v2.username = v.username ∧ v2.password = v.password ∧
          v2.theme = v.theme ∧ v2.notifications_enabled = v.notifications_enabled ∧
          v2.incognito = v.incognito ∧
          v2.language = (if (v.id : Int) = user_id then language2 else v.language))) ∧
    ((toggle_incognito user_id iEnabled db).1 =
        .ok { success := true, incognito := iEnabled } ∧
     (toggle_incognito user_id iEnabled db).2.nextId = db.nextId ∧
     (toggle_incognito user_id iEnabled db).2.users.length = db.users.length ∧
     (∀ i v, db.users.get? i = some v →
        ∃ v2, (toggle_incognito user_id iEnabled db).2.users.get? i = some v2 ∧
          v2.id = v.id ∧ v2.username = v.username ∧ v2.password = v.password ∧
          v2.theme = v.theme ∧ v2.notifications_enabled = v.notifications_enabled ∧
          v2.language = v.language ∧
          v2.incognito = (if (v.id : Int) = user_id then iEnabled else v.incognito))) := by
  obtain ⟨u, hu⟩ := Option.isSome_iff_exists.mp h
  have hs1 : (personalize user_id theme2 db).2 =
      setById db user_id (fun w => { w with theme := theme2 }) := by
    simp [personalize, hu]
  have hs2 : (notifications user_id nEnabled db).2 =
      setById db user_id (fun w => { w with notifications_enabled := nEnabled }) := by
    simp [notifications, hu]
  have hs3 : (change_language user_id language2 db).2 =
      setById db user_id (fun w => { w with language := language2 }) := by
    simp [change_language, hu]
  have hs4 : (toggle_incognito user_id iEnabled db).2 =
      setById db user_id (fun w => { w with incognito := iEnabled }) := by
    simp [toggle_incognito, hu]
  refine ⟨⟨by simp [personalize, hu], by rw [hs1]; rfl,
           by rw [hs1]; exact setById_length db user_id _, ?_⟩,
          ⟨by simp [notifications, hu], by rw [hs2]; rfl,
           by rw [hs2]; exact setById_length db user_id _, ?_⟩,
          ⟨by simp [change_language, hu], by rw [hs3]; rfl,
           by rw [hs3]; exact setById_length db user_id _, ?_⟩,
          ⟨by simp [toggle_incognito, hu], by rw [hs4]; rfl,
           by rw [hs4]; exact setById_length db user_id _, ?_⟩⟩
  all_goals intro i v hv
  · by_cases hid : (v.id : Int) = user_id
    · exact ⟨{ v with theme := theme2 },
        by rw [hs1, setById_frame db user_id _ i v hv, if_pos hid],
        rfl, rfl, rfl, rfl, rfl, rfl, by rw [if_pos hid]⟩
    · exact ⟨v, by rw [hs1, setById_frame db user_id _ i v hv, if_neg hid],
        rfl, rfl, rfl, rfl, rfl, rfl, by rw [if_neg hid]⟩
  · by_cases hid : (v.id : Int) = user_id
    · exact ⟨{ v with notifications_enabled := nEnabled },
        by rw [hs2, setById_frame db user_id _ i v hv, if_pos hid],
        rfl, rfl, rfl, rfl, rfl, rfl, by rw [if_pos hid]⟩
    · exact ⟨v, by rw [hs2, setById_frame db user_id _ i v hv, if_neg hid],
        rfl, rfl, rfl, rfl, rfl, rfl, by rw [if_neg hid]⟩
  · by_cases hid : (v.id : Int) = user_id
    · exact ⟨{ v with language := language2 },
        by rw [hs3, setById_frame db user_id _ i v hv, if_pos hid],
        rfl, rfl, rfl, rfl, rfl, rfl, by rw [if_pos hid]⟩
    · exact ⟨v, by rw [hs3, setById_frame db user_id _ i v hv, if_neg hid],
        rfl, rfl, rfl, rfl, rfl, rfl, by rw [if_neg hid]⟩
  · by_cases hid : (v.id : Int) = user_id
    · exact ⟨{ v with incognito := iEnabled },
        by rw [hs4, setById_frame db user_id _ i v hv, if_pos hid],
        rfl, rfl, rfl, rfl, rfl, rfl, by rw [if_pos hid]⟩
    · exact ⟨v, by rw [hs4, setById_frame db user_id _ i v hv, if_neg hid],
        rfl, rfl, rfl, rfl, rfl, rfl, by rw [if_neg hid]⟩

/-- C7 witness: updating the theme of user 1 in the one-user store
reports success with the new value. -/
theorem preference_update_frame_witness :
    (personalize 1 "dark" dbAlice).1 = .ok { success := true, theme := "dark" } :=
  (preference_update_frame 1 "dark" "fr" false true dbAlice rfl).1.1

/-- Passwords stay in the image of the hash across a keyed write that
does not touch the password column. -/
theorem setById_preserves_hashed (hashFn : String → String) (db : Store)
    (user_id : Int) (f : User → User)
    (hf : ∀ v, (f v).password = v.password)
    (ih : ∀ u ∈ db.users, ∃ p, u.password = hashFn p) :
    ∀ u ∈ (setById db user_id f).users, ∃ p, u.password = hashFn p := by
  intro u hu
  simp only [setById, List.mem_map] at hu
  obtain ⟨v, hv, hfv⟩ := hu
  obtain ⟨p, hp⟩ := ih v hv
  refine ⟨p, ?_⟩
  rw [← hfv]
  by_cases hid : (v.id : Int) = user_id
  · rw [if_pos hid, hf v]; exact hp
  · rw [if_neg hid]; exact hp

/-- C8: in every store reachable through the exposed operations, the
password column of every row is an output of the salted hash applied at
that row's registration — registration is the only write to the column
and it stores `hashFn password`, so no operation ever stores a
plaintext there (and no response record carries a password field at
all). -/
theorem passwords_always_hashed (hashFn : String → String) (secret : String)
    (db : Store) (h : Reachable hashFn secret db) :
    ∀ u ∈ db.users, ∃ p, u.password = hashFn p := by
  induction h with
  | init => intro u hu; simp [emptyStore] at hu
  | register now username password db0 hdb ih =>
      intro u hu
      cases hf : db0.users.find? (fun v => v.username = username) with
      | some w =>
          simp only [register_user, hf] at hu
          exact ih u hu
      | none =>
          simp only [register_user, hf, List.mem_append, List.mem_singleton] at hu
          rcases hu with hu | hu
          · exact ih u hu
          · exact ⟨password, by rw [hu]⟩
  | set_theme user_id theme2 db0 hdb ih =>
      cases hg : getById db0 user_id with
      | none => intro u hu; simp only [personalize, hg] at hu; exact ih u hu
      | some w =>
          have hs : (personalize user_id theme2 db0).2 =
              setById db0 user_id (fun v => { v with theme := theme2 }) := by
            simp [personalize, hg]
          rw [hs]
          exact setById_preserves_hashed hashFn db0 user_id _ (fun v => rfl) ih
  | set_notifications user_id enabled db0 hdb ih =>
      cases hg : getById db0 user_id with
      | none => intro u hu; simp only [notifications, hg] at hu; exact ih u hu
      | some w =>
          have hs : (notifications user_id enabled db0).2 =
              setById db0 user_id (fun v => { v with notifications_enabled := enabled }) := by
            simp [notifications, hg]
          rw [hs]
          exact setById_preserves_hashed hashFn db0 user_id _ (fun v => rfl) ih
  | set_language user_id language2 db0 hdb ih =>
      cases hg : getById db0 user_id with
      | none => intro u hu; simp only [change_language, hg] at hu; exact ih u hu
      | some w =>
          have hs : (change_language user_id language2 db0).2 =
              setById db0 user_id (fun v => { v with language := language2 }) := by
            simp [change_language, hg]
          rw [hs]
          exact setById_preserves_hashed hashFn db0 user_id _ (fun v => rfl) ih
  | set_incognito user_id enabled db0 hdb ih =>
      cases hg : getById db0 user_id with
      | none => intro u hu; simp only [toggle_incognito, hg] at hu; exact ih u hu
      | some w =>
          have hs : (toggle_incognito user_id enabled db0).2 =
              setById db0 user_id (fun v => { v with incognito := enabled }) := by
            simp [toggle_incognito, hg]
          rw [hs]
          exact setById_preserves_hashed hashFn db0 user_id _ (fun v => rfl) ih

/-- C8 witness: the store reached by registering "alice" is the
one-user store, and her stored password is a hash image. -/
theorem passwords_always_hashed_witness :
    ∃ p, aliceUser.password = demoHash p :=
  passwords_always_hashed demoHash "sec" dbAlice
    (Reachable.register 0 "alice" "pw1" emptyStore Reachable.init)
    aliceUser (by simp [dbAlice])

end WellnessHub
